import Mathlib

/-!
Shallow embedding of the zing-signals repository.

Sources embedded:
* `src/evaluation.js`   — decision ledger: record / advance / evaluate / stats
* `src/engine.js`       — indicator bank, scoring, total-score aggregation
* `src/unnamed/part_000` — SystemState rolling-window metrics consumer

JavaScript numbers are modelled as rationals (`ℚ`).  A JS value that can be
`undefined`/missing is modelled as an `Option`.  A score field that the code
guards with `Number.isFinite` is modelled as `Option ℚ`, `none` standing for a
non-finite (NaN/Infinity) value.  Mutation of a decision object in place is
modelled by returning the updated record.
-/

namespace ZingSignals

/-- Direction of a decision: `'BUY' | 'SELL' | 'NEUTRAL'`. -/
inductive Direction
  | BUY
  | SELL
  | NEUTRAL
deriving DecidableEq

/-- Lifecycle status of a decision: `'pending' | 'ready' | 'evaluated'`. -/
inductive DecisionStatus
  | pending
  | ready
  | evaluated
deriving DecidableEq

/-- Evaluation outcome: `'correct' | 'incorrect' | 'neutral'`. -/
inductive EvalResult
  | correct
  | incorrect
  | neutral
deriving DecidableEq

/-- The evaluation record attached by `evaluateDecision`
(`src/evaluation.js` lines 148–153). -/
structure Evaluation where
  result : EvalResult
  futurePrice : ℚ
  priceChange : ℚ
  evaluatedAt : ℚ
deriving DecidableEq

/-- A stored decision (`src/evaluation.js` lines 40–53).  Fields that no claim
depends on (`id`, `indicators`, `explanation`, `marketContext`) are omitted;
they are copied verbatim from the payload and never read by the embedded
functions. -/
structure Decision where
  timestamp : ℚ
  direction : Direction
  confidence : ℚ
  currentPrice : ℚ
  timeframe : String
  evaluationHorizon : ℚ
  status : DecisionStatus
  evaluation : Option Evaluation
deriving DecidableEq

/-- Payload accepted by `recordDecision` (`src/evaluation.js` lines 20–38).
`evaluationHorizon` is the optional explicit horizon override. -/
structure DecisionData where
  direction : Direction
  confidence : ℚ
  currentPrice : ℚ
  timeframe : String
  evaluationHorizon : Option ℚ
deriving DecidableEq

/-- `getEvaluationHorizon` (`src/evaluation.js` lines 70–80): horizon in
minutes looked up from the timeframe, defaulting to 5. -/
def getEvaluationHorizon (timeframe : String) : ℚ :=
  if timeframe = "1m" then 3
  else if timeframe = "5m" then 15
  else if timeframe = "15m" then 45
  else if timeframe = "1h" then 180
  else 5

/-- Construction of the decision object stored by `recordDecision`
(`src/evaluation.js` lines 36–53).  The JS expression
`decisionData.evaluationHorizon || (horizonMinutes * 60 * 1000)` falls back to
the lookup both when the override is absent and when it is `0` (falsy). -/
def mkDecision (now : ℚ) (decisionData : DecisionData) : Decision :=
  let horizonMinutes := getEvaluationHorizon decisionData.timeframe
  let evaluationHorizon :=
    match decisionData.evaluationHorizon with
    | some v => if v = 0 then horizonMinutes * 60 * 1000 else v
    | none => horizonMinutes * 60 * 1000
  { timestamp := now
    direction := decisionData.direction
    confidence := decisionData.confidence
    currentPrice := decisionData.currentPrice
    timeframe := decisionData.timeframe
    evaluationHorizon := evaluationHorizon
    status := DecisionStatus.pending
    evaluation := none }

/-- `recordDecision` (`src/evaluation.js` lines 35–63): push the new decision,
then truncate to the most recent 1000 (`decisionHistory.slice(-1000)`). -/
def recordDecision (history : List Decision) (now : ℚ)
    (decisionData : DecisionData) : List Decision :=
  let h := history ++ [mkDecision now decisionData]
  if h.length > 1000 then h.drop (h.length - 1000) else h

/-- `isDecisionReady` (`src/evaluation.js` lines 88–91):
`currentTime - decision.timestamp >= decision.evaluationHorizon`. -/
def isDecisionReady (decision : Decision) (currentTime : ℚ) : Prop :=
  decision.evaluationHorizon ≤ currentTime - decision.timestamp

instance (d : Decision) (t : ℚ) : Decidable (isDecisionReady d t) := by
  unfold isDecisionReady; infer_instance

/-- The per-decision body of `updateDecisionStatuses`
(`src/evaluation.js` lines 96–104): a pending decision whose horizon has
elapsed becomes ready; every other decision is untouched. -/
def updateDecisionStatus (now : ℚ) (decision : Decision) : Decision :=
  if decision.status = DecisionStatus.pending ∧ isDecisionReady decision now then
    { decision with status := DecisionStatus.ready }
  else decision

/-- `updateDecisionStatuses` (`src/evaluation.js` lines 96–104) applied to the
whole history. -/
def updateDecisionStatuses (now : ℚ) (history : List Decision) : List Decision :=
  history.map (updateDecisionStatus now)

/-- The payload forwarded to `window.SystemState.recordDecision`
(`src/evaluation.js` lines 159–166 and `src/unnamed/part_000` lines 99–110).
`ret` stands for the source's `return` property. -/
structure StatePayload where
  timeframe : Option String
  direction : Option Direction
  success : Option Bool
  ret : Option ℚ
  confidence : Option ℚ
  timestamp : Option ℚ
deriving DecidableEq

/-- `evaluateDecision` (`src/evaluation.js` lines 112–173).  Returns the JS
return value (`null` when the decision is not ready), the (possibly mutated)
decision, and the payload forwarded to the SystemState consumer (`none` when
no forwarding happens). -/
def evaluateDecision (now : ℚ) (decision : Decision) (futurePrice : ℚ) :
    Option EvalResult × Decision × Option StatePayload :=
  if decision.status ≠ DecisionStatus.ready then (none, decision, none)
  else
    let priceChange := (futurePrice - decision.currentPrice) / decision.currentPrice * 100
    let threshold : ℚ := 1/10
    let result :=
      match decision.direction with
      | Direction.BUY =>
          if priceChange > threshold then EvalResult.correct
          else if priceChange < -threshold then EvalResult.incorrect
          else EvalResult.neutral
      | Direction.SELL =>
          if priceChange < -threshold then EvalResult.correct
          else if priceChange > threshold then EvalResult.incorrect
          else EvalResult.neutral
      | Direction.NEUTRAL => EvalResult.neutral
    let updated := { decision with
      status := DecisionStatus.evaluated
      evaluation := some ⟨result, futurePrice, priceChange, now⟩ }
    let payload : StatePayload :=
      { timeframe := some decision.timeframe
        direction := some decision.direction
        success := some (decide (result = EvalResult.correct))
        ret := some priceChange
        confidence := some decision.confidence
        timestamp := some now }
    (some result, updated, some payload)

/-- Result record returned by `getPerformanceStats`
(`src/evaluation.js` lines 207–246). -/
structure PerfStats where
  total : ℕ
  pending : ℕ
  ready : ℕ
  evaluated : ℕ
  correct : ℕ
  incorrect : ℕ
  neutral : ℕ
  accuracy : ℚ
  winRate : ℚ
deriving DecidableEq

/-- The test `d.evaluation.result === r` used by the stats functions; on a
decision whose evaluation is absent it is false. -/
def hasResult (d : Decision) (r : EvalResult) : Prop :=
  match d.evaluation with
  | some e => e.result = r
  | none => False

instance (d : Decision) (r : EvalResult) : Decidable (hasResult d r) := by
  unfold hasResult
  cases d.evaluation <;> infer_instance

/-- `getPerformanceStats` (`src/evaluation.js` lines 207–246). -/
def getPerformanceStats (history : List Decision) : PerfStats :=
  let evaluated := history.filter (fun d => d.status = DecisionStatus.evaluated)
  if evaluated.length = 0 then
    { total := 0
      pending := (history.filter (fun d => d.status = DecisionStatus.pending)).length
      ready := (history.filter (fun d => d.status = DecisionStatus.ready)).length
      evaluated := 0, correct := 0, incorrect := 0, neutral := 0
      accuracy := 0, winRate := 0 }
  else
    let correct := (evaluated.filter (fun d => hasResult d EvalResult.correct)).length
    let incorrect := (evaluated.filter (fun d => hasResult d EvalResult.incorrect)).length
    let neutral := (evaluated.filter (fun d => hasResult d EvalResult.neutral)).length
    let decisiveDecisions := correct + incorrect
    let accuracy : ℚ :=
      if decisiveDecisions > 0 then ((correct : ℚ) / (decisiveDecisions : ℚ)) * 100 else 0
    let winRate : ℚ := ((correct : ℚ) / (evaluated.length : ℚ)) * 100
    { total := history.length
      pending := (history.filter (fun d => d.status = DecisionStatus.pending)).length
      ready := (history.filter (fun d => d.status = DecisionStatus.ready)).length
      evaluated := evaluated.length
      correct := correct, incorrect := incorrect, neutral := neutral
      accuracy := accuracy, winRate := winRate }

/-! ### engine.js — scoring and total-score aggregation -/

/-- Trading mode from the analysis config. -/
inductive TradingMode
  | aggressive
  | balanced
  | conservative
deriving DecidableEq

/-- Divergence flag carried by the divergence score entry. -/
inductive DivKind
  | bullish
  | bearish
deriving DecidableEq

/-- One numeric entry of the score set (`src/engine.js` lines 187–215):
`{score, weight}`.  `score = none` models a non-finite JS number, which the
aggregation's `Number.isFinite` guard skips. -/
structure ScoreEntry where
  score : Option ℚ
  weight : ℚ
deriving DecidableEq

/-- The score set built by `calculateIndicatorScores`
(`src/engine.js` lines 177–221): seven numeric entries plus the divergence
entry, which carries `{value, weight: 0}` and no `score` field (so the
aggregation always skips it). -/
structure ScoreSet where
  rsi : ScoreEntry
  macd : ScoreEntry
  stochRsi : ScoreEntry
  mfi : ScoreEntry
  trend : ScoreEntry
  occ : ScoreEntry
  stcCci : ScoreEntry
  divergence : Option DivKind
deriving DecidableEq

/-- Analysis config fields read by the total-score computation. -/
structure AnalysisConfig where
  tradingMode : TradingMode
  divergenceDetection : Bool
deriving DecidableEq

/-- `adjustScoreByMode` (`src/engine.js` lines 368–372). -/
def adjustScoreByMode (score : ℚ) (mode : TradingMode) : ℚ :=
  match mode with
  | TradingMode.aggressive => score * (8/10)
  | TradingMode.conservative => score * (15/10)
  | TradingMode.balanced => score

/-- One step of the `Object.values(...).forEach` accumulation in
`calculateTotalScore` (`src/engine.js` lines 233–237): add the entry's score
when it is finite. -/
def addFiniteScore (totalScore : ℚ) (e : ScoreEntry) : ℚ :=
  match e.score with
  | some s => totalScore + s
  | none => totalScore

/-- `calculateTotalScore` (`src/engine.js` lines 229–256): unweighted sum of
the finite scores, then mode scaling, then the ±20 divergence adjustment.
The divergence entry has no `score` field, so only the seven numeric entries
feed the sum; a sum of rationals is always finite, so the
`Number.isFinite(totalScore)` reset never fires. -/
def calculateTotalScore (s : ScoreSet) (config : AnalysisConfig) : ℚ :=
  let totalScore :=
    [s.rsi, s.macd, s.stochRsi, s.mfi, s.trend, s.occ, s.stcCci].foldl addFiniteScore 0
  let totalScore := adjustScoreByMode totalScore config.tradingMode
  let totalScore :=
    if config.divergenceDetection ∧ s.divergence = some DivKind.bullish
    then totalScore + 20 else totalScore
  if config.divergenceDetection ∧ s.divergence = some DivKind.bearish
  then totalScore - 20 else totalScore

/-! ### engine.js — indicators needed by the claims -/

/-- The per-candle change list `prices[i] - prices[i-1]` for `i = 1 …`. -/
def diffs (prices : List ℚ) : List ℚ :=
  List.zipWith (fun a b => b - a) prices prices.tail

/-- One iteration of the Wilder smoothing loop in `calculateRSI`
(`src/engine.js` lines 393–402), acting on the pair `(avgGain, avgLoss)`. -/
def rsiStep (period : ℕ) (gl : ℚ × ℚ) (change : ℚ) : ℚ × ℚ :=
  if change > 0 then
    ((gl.1 * ((period : ℚ) - 1) + change) / (period : ℚ),
     (gl.2 * ((period : ℚ) - 1)) / (period : ℚ))
  else
    ((gl.1 * ((period : ℚ) - 1)) / (period : ℚ),
     (gl.2 * ((period : ℚ) - 1) - change) / (period : ℚ))

/-- `calculateRSI` (`src/engine.js` lines 378–407). -/
def calculateRSI (prices : List ℚ) (period : ℕ) : ℚ :=
  if prices.length < period + 1 then 50
  else
    let ds := diffs prices
    let gains := ((ds.take period).map (fun c => if c > 0 then c else 0)).sum
    let losses := ((ds.take period).map (fun c => if c > 0 then 0 else -c)).sum
    let start : ℚ × ℚ := (gains / (period : ℚ), losses / (period : ℚ))
    let final := (ds.drop period).foldl (rsiStep period) start
    if final.2 = 0 then 100
    else 100 - 100 / (1 + final.1 / final.2)

/-- `calculateEMA` (`src/engine.js` lines 479–490).  When the series is
shorter than the period, the source returns `prices[prices.length - 1]`;
on an empty series this is modelled with default `0`. -/
def calculateEMA (prices : List ℚ) (period : ℕ) : ℚ :=
  if prices.length < period then prices.getLastD 0
  else
    let multiplier : ℚ := 2 / ((period : ℚ) + 1)
    (prices.drop period).foldl
      (fun ema p => (p - ema) * multiplier + ema)
      ((prices.take period).sum / (period : ℚ))

/-- Typical prices `(highs[i] + lows[i] + close) / 3` indexed over the close
series (`src/engine.js` line 619). -/
def typicalPrices (highs lows closes : List ℚ) : List ℚ :=
  (List.range closes.length).map
    (fun i => (highs.getD i 0 + lows.getD i 0 + closes.getD i 0) / 3)

/-- `calculateCCI` (`src/engine.js` lines 615–631). -/
def calculateCCI (highs lows closes : List ℚ) (period : ℕ) : ℚ :=
  if closes.length < period then 0
  else
    let tps := typicalPrices highs lows closes
    let window := tps.drop (tps.length - period)
    let sma := window.sum / (period : ℚ)
    let meanDev := (window.map (fun tp => |tp - sma|)).sum / (period : ℚ)
    if meanDev = 0 then 0
    else
      let currentTP := tps.getLastD 0
      (currentTP - sma) / ((15/1000) * meanDev)

/-- `Math.max` over a list, as applied to the spread of a non-empty array. -/
def listMax (l : List ℚ) : ℚ := l.foldl max (l.headD 0)

/-- `Math.min` over a list, as applied to the spread of a non-empty array. -/
def listMin (l : List ℚ) : ℚ := l.foldl min (l.headD 0)

/-- `calculateSchaffTrendCycle` (`src/engine.js` lines 633–662). -/
def calculateSchaffTrendCycle (closes : List ℚ)
    (fastPeriod slowPeriod cyclePeriod : ℕ) : ℚ :=
  if closes.length < slowPeriod + cyclePeriod then 50
  else
    let macd := calculateEMA closes fastPeriod - calculateEMA closes slowPeriod
    let start := closes.length - cyclePeriod * 2
    let macdArray := (List.range (closes.length - start)).map
      (fun j =>
        let sliceData := closes.take (start + j + 1)
        calculateEMA sliceData fastPeriod - calculateEMA sliceData slowPeriod)
    let recentMACD := macdArray.drop (macdArray.length - cyclePeriod)
    let maxMACD := listMax recentMACD
    let minMACD := listMin recentMACD
    let range := maxMACD - minMACD
    if range = 0 then 50
    else ((macd - minMACD) / range) * 100

/-- Result record of `calculateSTCCCI` (`src/engine.js` lines 664–714).
The `stc`/`cci`/`priceChange` fields are absent from the short-series return
object, hence `Option`. -/
structure STCCCIResult where
  value : ℚ
  signal : Direction
  strength : ℚ
  stc : Option ℚ
  cci : Option ℚ
  priceChange : Option ℚ
deriving DecidableEq

/-- `calculateSTCCCI` (`src/engine.js` lines 664–714). -/
def calculateSTCCCI (highs lows closes : List ℚ) (period : ℕ) : STCCCIResult :=
  if closes.length < 50 then
    { value := 0, signal := Direction.NEUTRAL, strength := 0
      stc := none, cci := none, priceChange := none }
  else
    let stc := calculateSchaffTrendCycle closes 23 50 10
    let cci := calculateCCI highs lows closes period
    let recentCloses := closes.drop (closes.length - 5)
    let priceChange :=
      (recentCloses.getLastD 0 - recentCloses.headD 0) / recentCloses.headD 0 * 100
    let bullishSignals : ℕ :=
      (if stc > 50 then 1 else 0) + (if cci > 0 then 1 else 0) +
        (if priceChange > 0 then 1 else 0)
    if bullishSignals ≥ 2 then
      { value := 30, signal := Direction.BUY, strength := 30
        stc := some stc, cci := some cci, priceChange := some priceChange }
    else if bullishSignals ≤ 1 then
      { value := -30, signal := Direction.SELL, strength := 30
        stc := some stc, cci := some cci, priceChange := some priceChange }
    else
      { value := 0, signal := Direction.NEUTRAL, strength := 0
        stc := some stc, cci := some cci, priceChange := some priceChange }

/-! ### engine.js (performance-analysis part) — bucketed reports -/

/-- A report bucket (`src/engine.js` lines 746–756, `initBucket`). -/
structure Bucket where
  total : ℕ
  correct : ℕ
  incorrect : ℕ
  neutral : ℕ
  accuracy : ℚ
  winRate : ℚ
deriving DecidableEq

/-- `finalizeBucket` (`src/engine.js` lines 758–763). -/
def finalizeBucket (bucket : Bucket) : Bucket :=
  let decisive := bucket.correct + bucket.incorrect
  { bucket with
    accuracy := if decisive > 0 then ((bucket.correct : ℚ) / (decisive : ℚ)) * 100 else 0
    winRate := if bucket.total > 0 then ((bucket.correct : ℚ) / (bucket.total : ℚ)) * 100 else 0 }

/-! ### src/unnamed/part_000 — SystemState rolling-window consumer -/

namespace SystemState

/-- An entry of the SystemState decision window
(`src/unnamed/part_000` lines 104–111). -/
structure WindowEntry where
  timeframe : String
  direction : ZingSignals.Direction
  success : Bool
  ret : ℚ
  confidence : ℚ
  timestamp : ℚ
deriving DecidableEq

/-- `WINDOW_SIZE` (`src/unnamed/part_000`). -/
def WINDOW_SIZE : ℕ := 50

/-- `SystemState.recordDecision` (`src/unnamed/part_000` lines 99–120):
reject a missing payload or one whose `success` field is `undefined`
(only a console warning, no state change); otherwise push the normalised
entry and `shift()` the oldest one past `WINDOW_SIZE`. -/
def recordDecision (decisionWindow : List WindowEntry)
    (data : Option ZingSignals.StatePayload) : List WindowEntry :=
  match data with
  | none => decisionWindow
  | some d =>
    match d.success with
    | none => decisionWindow
    | some s =>
      let entry : WindowEntry :=
        { timeframe := d.timeframe.getD "unknown"
          direction := d.direction.getD ZingSignals.Direction.NEUTRAL
          success := s
          ret := d.ret.getD 0
          confidence := d.confidence.getD 0
          timestamp := d.timestamp.getD 0 }
      let w := decisionWindow ++ [entry]
      if w.length > WINDOW_SIZE then w.drop 1 else w

/-- `calculateAccuracy` (`src/unnamed/part_000` lines 23–27):
share of entries with `success === true`. -/
def calculateAccuracy (w : List WindowEntry) : ℚ :=
  if w.length = 0 then 0
  else (((w.filter (fun d => d.success = true)).length : ℚ) / (w.length : ℚ)) * 100

/-- The backwards scan of `calculateConsecutiveErrors`
(`src/unnamed/part_000` lines 41–55), iterating the window from its end
(here: over the reversed list), incrementing `current` and updating `max`
while `success === false`, breaking at the first other entry. -/
def consecErrLoop : List WindowEntry → ℕ × ℕ → ℕ × ℕ
  | [], acc => acc
  | e :: rest, (current, m) =>
    if e.success = false then consecErrLoop rest (current + 1, max m (current + 1))
    else (current, m)

/-- `calculateConsecutiveErrors` (`src/unnamed/part_000` lines 41–55):
returns `{current, max}`. -/
def calculateConsecutiveErrors (w : List WindowEntry) : ℕ × ℕ :=
  consecErrLoop w.reverse (0, 0)

end SystemState

/-! ### Spec-side definitions

The following definitions transcribe the spec's wording (not the code); the
theorems below relate them to the embedded source functions. -/

/-- Spec-side outcome classification: threshold 0.1, strict comparisons,
BUY/SELL mirrored, NEUTRAL always neutral. -/
def claimClassify (direction : Direction) (priceChangePct : ℚ) : EvalResult :=
  match direction with
  | Direction.BUY =>
      if priceChangePct > 1/10 then EvalResult.correct
      else if priceChangePct < -(1/10) then EvalResult.incorrect
      else EvalResult.neutral
  | Direction.SELL =>
      if priceChangePct < -(1/10) then EvalResult.correct
      else if priceChangePct > 1/10 then EvalResult.incorrect
      else EvalResult.neutral
  | Direction.NEUTRAL => EvalResult.neutral

/-- Spec-side successor in the `pending → ready → evaluated` lifecycle
(`evaluated` is terminal). -/
def nextStatus : DecisionStatus → DecisionStatus
  | DecisionStatus.pending => DecisionStatus.ready
  | DecisionStatus.ready => DecisionStatus.evaluated
  | DecisionStatus.evaluated => DecisionStatus.evaluated

/-- Spec-side horizon table in milliseconds:
`{1m: 180000, 5m: 900000, 15m: 2700000, 1h: 10800000, default: 300000}`. -/
def horizonTableMs (timeframe : String) : ℚ :=
  if timeframe = "1m" then 180000
  else if timeframe = "5m" then 900000
  else if timeframe = "15m" then 2700000
  else if timeframe = "1h" then 10800000
  else 300000

/-- Spec-side unweighted sum of the finite per-indicator scores (a missing
score contributes nothing; weights are ignored). -/
def sumFiniteScores (s : ScoreSet) : ℚ :=
  s.rsi.score.getD 0 + s.macd.score.getD 0 + s.stochRsi.score.getD 0 +
    s.mfi.score.getD 0 + s.trend.score.getD 0 + s.occ.score.getD 0 +
    s.stcCci.score.getD 0

/-- Spec-side divergence adjustment: +20 for a flagged bullish divergence,
−20 for a flagged bearish one, only when divergence detection is enabled. -/
def divergenceAdjustment (config : AnalysisConfig) (dv : Option DivKind) : ℚ :=
  if config.divergenceDetection then
    match dv with
    | some DivKind.bullish => 20
    | some DivKind.bearish => -20
    | none => 0
  else 0

/-- Replace every weight in a score set (used to state that the aggregation
never reads the weights). -/
def setWeights (s : ScoreSet) (w : ℚ) : ScoreSet :=
  { rsi := { s.rsi with weight := w }
    macd := { s.macd with weight := w }
    stochRsi := { s.stochRsi with weight := w }
    mfi := { s.mfi with weight := w }
    trend := { s.trend with weight := w }
    occ := { s.occ with weight := w }
    stcCci := { s.stcCci with weight := w }
    divergence := s.divergence }

/-- The most recent 1000 entries of a list, in order (spec-side description
of FIFO truncation). -/
def lastThousand (l : List Decision) : List Decision :=
  l.drop (l.length - 1000)

/-- Fold a batch of `(now, payload)` recordings through `recordDecision`. -/
def recordAll (history : List Decision) (items : List (ℚ × DecisionData)) :
    List Decision :=
  items.foldl (fun h it => recordDecision h it.1 it.2) history

/-- Spec-side count of bullish votes of the STC-CCI composite:
STC > 50, CCI > 0, 5-candle price change > 0. -/
def stcCciVotes (highs lows closes : List ℚ) (period : ℕ) : ℕ :=
  let stc := calculateSchaffTrendCycle closes 23 50 10
  let cci := calculateCCI highs lows closes period
  let recentCloses := closes.drop (closes.length - 5)
  let priceChange :=
    (recentCloses.getLastD 0 - recentCloses.headD 0) / recentCloses.headD 0 * 100
  (if stc > 50 then 1 else 0) + (if cci > 0 then 1 else 0) +
    (if priceChange > 0 then 1 else 0)

/-- Spec-side accuracy formula: `correct / (correct + incorrect) × 100`, `0`
when there is no decisive outcome.  Shared by the overall stats and the
bucketed reports. -/
def claimAccuracy (correct incorrect : ℕ) : ℚ :=
  if correct + incorrect > 0 then ((correct : ℚ) / ((correct + incorrect : ℕ) : ℚ)) * 100
  else 0

/-! ### Theorems -/

/-- C1: evaluating a ready decision against a future price computes
`priceChangePct = (futurePrice − currentPriceAtDecision) / currentPriceAtDecision × 100`
and classifies it with strict comparisons against the 0.1 threshold (BUY
correct iff > 0.1, incorrect iff < −0.1, else neutral; SELL mirrored;
NEUTRAL always neutral); in particular a price change of exactly 0.1
classifies as neutral for every direction. -/
theorem evaluateDecision_classification (now : ℚ) (d : Decision) (fp : ℚ)
    (h : d.status = DecisionStatus.ready) :
    (evaluateDecision now d fp).1 =
      some (claimClassify d.direction ((fp - d.currentPrice) / d.currentPrice * 100))
    ∧ ∀ dir : Direction, claimClassify dir (1/10) = EvalResult.neutral := by
  constructor
  · have h' : ¬ d.status ≠ DecisionStatus.ready := by simp [h]
    unfold evaluateDecision
    rw [if_neg h']
    cases hdir : d.direction <;> simp [claimClassify, hdir]
  · intro dir
    cases dir <;> norm_num [claimClassify]

/-- Witness for C1 at a concrete ready BUY decision and future price 105. -/
theorem evaluateDecision_classification_witness :
    (evaluateDecision 5
        ⟨0, Direction.BUY, 50, 100, "1m", 180000, DecisionStatus.ready, none⟩ 105).1 =
      some (claimClassify Direction.BUY ((105 - 100) / 100 * 100)) :=
  (evaluateDecision_classification 5
    ⟨0, Direction.BUY, 50, 100, "1m", 180000, DecisionStatus.ready, none⟩ 105 rfl).1

/-- C2: a decision's status only ever moves `pending → ready → evaluated`:
advancing moves a pending decision to ready exactly when the elapsed time
reaches its horizon and touches nothing else, evaluating moves a ready
decision to evaluated, neither operation skips or reverses a state, and
evaluating a non-ready decision returns null and leaves the decision (status
and evaluation field included) unchanged. -/
theorem decision_lifecycle (now : ℚ) (d : Decision) (fp : ℚ) :
    ((updateDecisionStatus now d).status = d.status ∨
      (updateDecisionStatus now d).status = nextStatus d.status)
    ∧ ((evaluateDecision now d fp).2.1.status = d.status ∨
      (evaluateDecision now d fp).2.1.status = nextStatus d.status)
    ∧ (d.status = DecisionStatus.pending →
        ((updateDecisionStatus now d).status = DecisionStatus.ready ↔
          d.evaluationHorizon ≤ now - d.timestamp))
    ∧ (d.status ≠ DecisionStatus.pending → updateDecisionStatus now d = d)
    ∧ (d.status = DecisionStatus.ready →
        (evaluateDecision now d fp).2.1.status = DecisionStatus.evaluated)
    ∧ (d.status ≠ DecisionStatus.ready → evaluateDecision now d fp = (none, d, none)) := by
  refine ⟨?_, ?_, ?_, ?_, ?_, ?_⟩
  · unfold updateDecisionStatus
    split_ifs with hc
    · exact Or.inr (by rw [hc.1]; rfl)
    · exact Or.inl rfl
  · unfold evaluateDecision
    split_ifs with hc
    · exact Or.inl rfl
    · push_neg at hc
      exact Or.inr (by rw [hc]; rfl)
  · intro hp
    unfold updateDecisionStatus isDecisionReady
    split_ifs with hc
    · simpa using hc.2
    · simp only [hp, true_and] at hc
      simp [hp, hc]
  · intro hp
    unfold updateDecisionStatus
    split_ifs with hc
    · exact absurd hc.1 hp
    · rfl
  · intro hr
    simp [evaluateDecision, hr]
  · intro hr
    simp [evaluateDecision, hr]

/-- Witness for C2 at a concrete pending decision whose horizon has elapsed. -/
theorem decision_lifecycle_witness :
    (updateDecisionStatus 200000
        ⟨0, Direction.SELL, 40, 100, "1m", 180000, DecisionStatus.pending, none⟩).status =
      DecisionStatus.ready :=
  ((decision_lifecycle 200000
      ⟨0, Direction.SELL, 40, 100, "1m", 180000, DecisionStatus.pending, none⟩ 100).2.2.1
    rfl).mpr (by norm_num)

/-- C3: the total score is the unweighted sum of the finite per-indicator
scores (the attached weight table is never read), scaled by the trading mode
(aggressive ×0.8, conservative ×1.5, balanced ×1.0), and only then adjusted
by +20 / −20 for a flagged bullish / bearish divergence when divergence
detection is enabled — so the ±20 adjustment is never scaled by the mode. -/
theorem calculateTotalScore_decomposition (s : ScoreSet) (config : AnalysisConfig)
    (w x : ℚ) :
    calculateTotalScore s config =
      adjustScoreByMode (sumFiniteScores s) config.tradingMode +
        divergenceAdjustment config s.divergence
    ∧ adjustScoreByMode x TradingMode.aggressive = x * (8/10)
    ∧ adjustScoreByMode x TradingMode.conservative = x * (15/10)
    ∧ adjustScoreByMode x TradingMode.balanced = x
    ∧ calculateTotalScore (setWeights s w) config = calculateTotalScore s config := by
  have hsum : ∀ t : ScoreSet,
      [t.rsi, t.macd, t.stochRsi, t.mfi, t.trend, t.occ, t.stcCci].foldl addFiniteScore 0 =
        sumFiniteScores t := by
    intro t
    have hadd : ∀ (acc : ℚ) (e : ScoreEntry), addFiniteScore acc e = acc + e.score.getD 0 := by
      intro acc e
      rcases he : e.score with _ | v <;> simp [addFiniteScore, he]
    simp only [List.foldl, hadd, sumFiniteScores]
    ring
  refine ⟨?_, rfl, rfl, rfl, ?_⟩
  · unfold calculateTotalScore divergenceAdjustment
    rw [hsum]
    rcases hdd : config.divergenceDetection with _ | _
    · simp [hdd]
    · rcases hdv : s.divergence with _ | k
      · simp [hdd, hdv]
      · cases k <;> simp [hdd, hdv, sub_eq_add_neg]
  · unfold calculateTotalScore
    rw [hsum, hsum]
    simp [setWeights, sumFiniteScores]

/-- C4 counterexample: recording a decision whose payload carries the explicit
override `0` (timeframe "5m") stores horizon 900000, not the provided
override — JS `||` treats a zero override as absent. -/
theorem recordDecision_zero_override_ignored :
    (recordDecision [] 0 ⟨Direction.BUY, 0, 0, "5m", some 0⟩).map
        (fun d => d.evaluationHorizon) = [(900000 : ℚ)]
    ∧ (900000 : ℚ) ≠ 0 := by
  constructor
  · norm_num [recordDecision, mkDecision, getEvaluationHorizon]
    decide
  · norm_num

/-- C4 (amended): the stored horizon equals the explicit override when a
nonzero override is provided (a zero override is falsy and treated as
absent), and otherwise equals the timeframe lookup
`{1m: 180000, 5m: 900000, 15m: 2700000, 1h: 10800000, default: 300000}`;
in particular timeframe "5m" with no override stores exactly 900000 ms. -/
theorem decision_horizon_amended (now : ℚ) (data : DecisionData) :
    (mkDecision now data).evaluationHorizon =
      (match data.evaluationHorizon with
       | some v => if v ≠ 0 then v else horizonTableMs data.timeframe
       | none => horizonTableMs data.timeframe)
    ∧ (data.timeframe = "5m" → data.evaluationHorizon = none →
        (mkDecision now data).evaluationHorizon = 900000) := by
  have htable : getEvaluationHorizon data.timeframe * 60 * 1000 =
      horizonTableMs data.timeframe := by
    unfold getEvaluationHorizon horizonTableMs
    split_ifs <;> norm_num
  constructor
  · unfold mkDecision
    rcases hov : data.evaluationHorizon with _ | v
    · simpa using htable
    · by_cases hz : v = 0
      · simp [hz, htable]
      · simp [hz]
  · intro htf hov
    unfold mkDecision
    simp [hov, htf, getEvaluationHorizon]
    norm_num

/-- Witness for C4 (amended) at a concrete "5m" payload with no override. -/
theorem decision_horizon_amended_witness :
    (mkDecision 0 ⟨Direction.SELL, 10, 100, "5m", none⟩).evaluationHorizon = 900000 :=
  (decision_horizon_amended 0 ⟨Direction.SELL, 10, 100, "5m", none⟩).2 rfl rfl

theorem lastThousand_eq_self {l : List Decision} (h : l.length ≤ 1000) :
    lastThousand l = l := by
  unfold lastThousand
  rw [Nat.sub_eq_zero_of_le h, List.drop_zero]

theorem lastThousand_length_le (l : List Decision) :
    (lastThousand l).length ≤ 1000 := by
  unfold lastThousand
  rw [List.length_drop]
  omega

theorem recordDecision_eq_lastThousand (h : List Decision) (now : ℚ)
    (d : DecisionData) :
    recordDecision h now d = lastThousand (h ++ [mkDecision now d]) := by
  unfold recordDecision lastThousand
  dsimp only
  split_ifs with hlen
  · rfl
  · rw [Nat.sub_eq_zero_of_le (by omega), List.drop_zero]

theorem lastThousand_append (l m : List Decision) :
    lastThousand (lastThousand l ++ m) = lastThousand (l ++ m) := by
  unfold lastThousand
  rw [List.drop_append_eq_append_drop, List.drop_append_eq_append_drop]
  simp only [List.drop_drop, List.length_append, List.length_drop]
  have h1 : l.length - 1000 + (l.length - (l.length - 1000) + m.length - 1000) =
      l.length + m.length - 1000 := by omega
  have h2 : l.length - (l.length - 1000) + m.length - 1000 - (l.length - (l.length - 1000)) =
      l.length + m.length - 1000 - l.length := by omega
  rw [h1, h2]

theorem recordAll_eq_lastThousand (items : List (ℚ × DecisionData)) :
    ∀ h : List Decision, h.length ≤ 1000 →
      recordAll h items =
        lastThousand (h ++ items.map (fun it => mkDecision it.1 it.2)) := by
  induction items with
  | nil =>
    intro h hlen
    simp only [recordAll, List.foldl_nil, List.map_nil, List.append_nil]
    exact (lastThousand_eq_self hlen).symm
  | cons it rest ih =>
    intro h hlen
    have hstep : recordAll h (it :: rest) = recordAll (recordDecision h it.1 it.2) rest := rfl
    rw [hstep, ih (recordDecision h it.1 it.2)
        (by rw [recordDecision_eq_lastThousand]; exact lastThousand_length_le _),
      recordDecision_eq_lastThousand, lastThousand_append]
    simp [List.append_assoc]

/-- C5: after any sequence of recordings starting from an empty history, the
history holds at most 1000 decisions, and its contents are exactly the most
recently recorded 1000 in their original insertion order (FIFO eviction of the
oldest, silently). -/
theorem decisionHistory_bounded_fifo (items : List (ℚ × DecisionData)) :
    (recordAll [] items).length ≤ 1000
    ∧ recordAll [] items =
        (items.map (fun it => mkDecision it.1 it.2)).drop (items.length - 1000) := by
  have h := recordAll_eq_lastThousand items [] (by simp)
  rw [List.nil_append] at h
  refine ⟨?_, ?_⟩
  · rw [h]; exact lastThousand_length_le _
  · rw [h]
    unfold lastThousand
    rw [List.length_map]

theorem zipWith_replicate_succ_self (f : ℚ → ℚ → ℚ) (c : ℚ) :
    ∀ k : ℕ, List.zipWith f (List.replicate (k + 1) c) (List.replicate k c) =
      List.replicate k (f c c) := by
  intro k
  induction k with
  | zero => rfl
  | succ n ih =>
    rw [List.replicate_succ c (n + 1), List.replicate_succ c n,
      List.replicate_succ (f c c) n, List.zipWith_cons_cons]
    exact congrArg _ ih

theorem diffs_replicate (n : ℕ) (c : ℚ) :
    diffs (List.replicate n c) = List.replicate (n - 1) 0 := by
  unfold diffs
  cases n with
  | zero => rfl
  | succ k =>
    rw [List.replicate_succ, List.tail_cons, ← List.replicate_succ]
    simp [zipWith_replicate_succ_self (fun a b => b - a) c k]

theorem foldl_rsiStep_zero (k : ℕ) :
    List.foldl (rsiStep 14) (0 : ℚ × ℚ) (List.replicate k (0 : ℚ)) = 0 := by
  induction k with
  | zero => rfl
  | succ n ih =>
    rw [List.replicate_succ, List.foldl_cons]
    have hstep : rsiStep 14 (0 : ℚ × ℚ) 0 = 0 := by
      norm_num [rsiStep, Prod.ext_iff]
    rw [hstep, ih]

theorem calculateRSI_replicate (n : ℕ) (c : ℚ) :
    calculateRSI (List.replicate n c) 14 = if n < 15 then 50 else 100 := by
  unfold calculateRSI
  rw [List.length_replicate, diffs_replicate]
  by_cases h : n < 15
  · simp [h]
  · rw [if_neg (by omega), if_neg h]
    dsimp only
    rw [List.take_replicate, List.drop_replicate]
    norm_num
    intro hne
    exact absurd (congrArg Prod.snd (foldl_rsiStep_zero (n - 1 - 14))) hne

/-- C7: on a perfectly flat close series (every close equal) of length at
least 15 = period + 1 the RSI is exactly 100 (the `avgLoss == 0` branch), not
50; and on any close series shorter than 15 entries it returns 50. -/
theorem rsi_flat_and_short (prices : List ℚ) (c : ℚ) (hall : ∀ x ∈ prices, x = c) :
    (15 ≤ prices.length → calculateRSI prices 14 = 100)
    ∧ ∀ l : List ℚ, l.length < 15 → calculateRSI l 14 = 50 := by
  constructor
  · intro hlen
    have hrep : prices = List.replicate prices.length c :=
      List.eq_replicate_length.mpr hall
    rw [hrep, calculateRSI_replicate, if_neg (by omega)]
  · intro l hl
    unfold calculateRSI
    rw [if_pos (by omega)]

/-- Witness for C7 at the flat series of fifteen ones. -/
theorem rsi_flat_and_short_witness :
    calculateRSI (List.replicate 15 (1 : ℚ)) 14 = 100 :=
  (rsi_flat_and_short (List.replicate 15 (1 : ℚ)) 1
      (fun x hx => List.eq_of_mem_replicate hx)).1 (by norm_num)

/-- C6: with at least 50 closes the STC-CCI composite is binary: score
exactly +30 with signal BUY when at least 2 of the three bullish votes
(STC > 50, CCI > 0, 5-candle price change > 0) hold, score exactly −30 with
signal SELL when at most 1 holds — never 0 and never NEUTRAL; with fewer
than 50 closes it returns the neutral zero record. -/
theorem stcCci_binary (highs lows closes : List ℚ) :
    (50 ≤ closes.length →
      ((calculateSTCCCI highs lows closes 20).value =
          if 2 ≤ stcCciVotes highs lows closes 20 then 30 else -30)
      ∧ ((calculateSTCCCI highs lows closes 20).signal =
          if 2 ≤ stcCciVotes highs lows closes 20 then Direction.BUY else Direction.SELL)
      ∧ (calculateSTCCCI highs lows closes 20).value ≠ 0
      ∧ (calculateSTCCCI highs lows closes 20).signal ≠ Direction.NEUTRAL)
    ∧ (closes.length < 50 →
        calculateSTCCCI highs lows closes 20 =
          ⟨0, Direction.NEUTRAL, 0, none, none, none⟩) := by
  constructor
  · intro hlen
    have hnot : ¬ closes.length < 50 := by omega
    unfold calculateSTCCCI stcCciVotes
    rw [if_neg hnot]
    dsimp only
    split_ifs <;> first | exact ⟨rfl, rfl, by norm_num, by simp⟩ | omega
  · intro hl
    unfold calculateSTCCCI
    rw [if_pos hl]

theorem typicalPrices_flat50 :
    typicalPrices [] [] (List.replicate 50 (1 : ℚ)) = List.replicate 50 (1/3 : ℚ) := by
  unfold typicalPrices
  rw [List.length_replicate]
  have hcongr : ∀ i ∈ List.range 50,
      (([] : List ℚ).getD i 0 + ([] : List ℚ).getD i 0 +
          (List.replicate 50 (1 : ℚ)).getD i 0) / 3 = 1/3 := by
    intro i hi
    have hi' : i < 50 := List.mem_range.mp hi
    rw [List.getD_eq_default _ _ (by simp),
      List.getD_eq_getElem _ _ (by simpa using hi'), List.getElem_replicate]
    norm_num
  rw [List.map_congr_left hcongr]
  simp [List.eq_replicate_iff]

theorem calculateCCI_flat50 : calculateCCI [] [] (List.replicate 50 (1 : ℚ)) 20 = 0 := by
  unfold calculateCCI
  rw [if_neg (by norm_num), typicalPrices_flat50]
  dsimp only
  rw [List.length_replicate, List.drop_replicate, List.map_replicate]
  norm_num [List.sum_replicate]

theorem stcCciVotes_flat50 : stcCciVotes [] [] (List.replicate 50 (1 : ℚ)) 20 = 0 := by
  unfold stcCciVotes
  dsimp only
  have hstc : calculateSchaffTrendCycle (List.replicate 50 (1 : ℚ)) 23 50 10 = 50 := rfl
  have hlast : ((List.replicate 50 (1 : ℚ)).drop
      ((List.replicate 50 (1 : ℚ)).length - 5)).getLastD 0 = 1 := rfl
  have hhead : ((List.replicate 50 (1 : ℚ)).drop
      ((List.replicate 50 (1 : ℚ)).length - 5)).headD 0 = 1 := rfl
  rw [hstc, calculateCCI_flat50, hlast, hhead]
  norm_num

/-- Witness for C6 at a flat 50-close series (all three votes are bearish). -/
theorem stcCci_binary_witness :
    (calculateSTCCCI [] [] (List.replicate 50 (1 : ℚ)) 20).value = -30 := by
  have h := (stcCci_binary [] [] (List.replicate 50 (1 : ℚ))).1 (by simp)
  rw [h.1, stcCciVotes_flat50]
  norm_num

/-- C8: overall stats use accuracy = correct/(correct+incorrect)×100 among
evaluated decisions (0 with no decisive outcome) while winRate =
correct/(all evaluated)×100 — two different denominators — and the bucketed
reports reuse the same accuracy formula. -/
theorem performance_stats_formulas (history : List Decision) (b : Bucket) :
    (getPerformanceStats history).accuracy =
      claimAccuracy (getPerformanceStats history).correct
        (getPerformanceStats history).incorrect
    ∧ (getPerformanceStats history).winRate =
        (if (getPerformanceStats history).evaluated > 0 then
          ((getPerformanceStats history).correct : ℚ) /
            ((getPerformanceStats history).evaluated : ℚ) * 100
        else 0)
    ∧ (getPerformanceStats history).evaluated =
        (history.filter (fun d => d.status = DecisionStatus.evaluated)).length
    ∧ (finalizeBucket b).accuracy = claimAccuracy b.correct b.incorrect
    ∧ (finalizeBucket b).winRate =
        (if b.total > 0 then (b.correct : ℚ) / (b.total : ℚ) * 100 else 0) := by
  refine ⟨?_, ?_, ?_, rfl, rfl⟩
  · by_cases hev : (history.filter (fun d => d.status = DecisionStatus.evaluated)).length = 0
    · simp only [getPerformanceStats]
      rw [if_pos hev]
      simp [claimAccuracy]
    · simp only [getPerformanceStats]
      rw [if_neg hev]
      rfl
  · by_cases hev : (history.filter (fun d => d.status = DecisionStatus.evaluated)).length = 0
    · simp only [getPerformanceStats]
      rw [if_pos hev]
      simp
    · simp only [getPerformanceStats]
      rw [if_neg hev]
      dsimp only
      rw [if_pos (Nat.pos_of_ne_zero hev)]
  · by_cases hev : (history.filter (fun d => d.status = DecisionStatus.evaluated)).length = 0
    · simp only [getPerformanceStats]
      rw [if_pos hev]
      exact hev.symm
    · simp only [getPerformanceStats]
      rw [if_neg hev]

/-- C9: a SystemState recording call whose payload is missing the required
`success` (outcome) field — or is missing entirely — is a no-op: the stored
window is returned unchanged, no entry is appended, and (the embedding being
a total function) no exception escapes. -/
theorem systemState_invalid_payload_noop (w : List SystemState.WindowEntry)
    (p : StatePayload) (hp : p.success = none) :
    SystemState.recordDecision w (some p) = w
    ∧ SystemState.recordDecision w none = w := by
  constructor
  · simp [SystemState.recordDecision, hp]
  · rfl

/-- Witness for C9 at a concrete window and an outcome-less payload. -/
theorem systemState_invalid_payload_noop_witness :
    SystemState.recordDecision
      [⟨"1m", Direction.BUY, true, 1, 50, 0⟩]
      (some ⟨some "5m", some Direction.SELL, none, some 2, some 60, some 1⟩) =
      [⟨"1m", Direction.BUY, true, 1, 50, 0⟩] :=
  (systemState_invalid_payload_noop
    [⟨"1m", Direction.BUY, true, 1, 50, 0⟩]
    ⟨some "5m", some Direction.SELL, none, some 2, some 60, some 1⟩ rfl).1

theorem consecErrLoop_fst (l : List SystemState.WindowEntry) :
    ∀ c m : ℕ,
      (SystemState.consecErrLoop l (c, m)).1 =
        c + (SystemState.consecErrLoop l (0, 0)).1 := by
  induction l with
  | nil => intro c m; simp [SystemState.consecErrLoop]
  | cons e rest ih =>
    intro c m
    by_cases he : e.success = false
    · simp only [SystemState.consecErrLoop, he, if_true]
      rw [ih (c + 1), ih (0 + 1)]
      omega
    · simp [SystemState.consecErrLoop, he]

/-- C10: the payload the ledger forwards to the SystemState consumer on
evaluation carries `success = true` iff the evaluation result is correct, so
a neutral outcome is forwarded with `success = false`; the consumer's
accuracy metric counts such an entry as a failure (it never enters the
success count while enlarging the denominator) and it extends the
consecutive-error streak exactly like an incorrect outcome. -/
theorem neutral_forwarded_as_failure (now : ℚ) (d : Decision) (fp : ℚ)
    (hready : d.status = DecisionStatus.ready)
    (w : List SystemState.WindowEntry) (e : SystemState.WindowEntry)
    (he : e.success = false) :
    (evaluateDecision now d fp).2.2.map StatePayload.success =
      some (some (decide ((evaluateDecision now d fp).1 = some EvalResult.correct)))
    ∧ ((evaluateDecision now d fp).1 = some EvalResult.neutral →
        (evaluateDecision now d fp).2.2.map StatePayload.success = some (some false))
    ∧ ((w ++ [e]).filter (fun x => x.success = true)).length =
        (w.filter (fun x => x.success = true)).length
    ∧ SystemState.calculateAccuracy (w ++ [e]) =
        ((w.filter (fun x => x.success = true)).length : ℚ) /
          ((w.length + 1 : ℕ) : ℚ) * 100
    ∧ (SystemState.calculateConsecutiveErrors (w ++ [e])).1 =
        (SystemState.calculateConsecutiveErrors w).1 + 1 := by
  have hmain : (evaluateDecision now d fp).2.2.map StatePayload.success =
      some (some (decide ((evaluateDecision now d fp).1 = some EvalResult.correct))) := by
    have h' : ¬ d.status ≠ DecisionStatus.ready := by simp [hready]
    unfold evaluateDecision
    rw [if_neg h']
    simp only [Option.map_some']
    exact congrArg some (congrArg some (decide_eq_decide.mpr Option.some_inj.symm))
  have hfilter : ((w ++ [e]).filter (fun x => x.success = true)).length =
      (w.filter (fun x => x.success = true)).length := by
    rw [List.filter_append]
    have hp : decide (e.success = true) = false := by rw [he]; rfl
    have hsingle : [e].filter (fun x => decide (x.success = true)) = [] := by
      simp only [List.filter_cons, hp, Bool.false_eq_true, if_false, List.filter_nil]
    simp only [hsingle, List.append_nil]
  refine ⟨hmain, ?_, hfilter, ?_, ?_⟩
  · intro hneut
    rw [hmain, hneut]
    simp
  · unfold SystemState.calculateAccuracy
    rw [if_neg (by simp), hfilter]
    simp
  · unfold SystemState.calculateConsecutiveErrors
    rw [List.reverse_append, List.reverse_singleton, List.singleton_append]
    simp only [SystemState.consecErrLoop, he, if_true]
    rw [consecErrLoop_fst w.reverse (0 + 1) (max 0 (0 + 1))]
    omega

/-- Witness for C10: a ready NEUTRAL decision is forwarded with
`success = some false`, and a failure entry appended to a one-success window
starts a streak of length 1. -/
theorem neutral_forwarded_as_failure_witness :
    (evaluateDecision 7
        ⟨0, Direction.NEUTRAL, 50, 100, "1m", 180000, DecisionStatus.ready, none⟩
        100).2.2.map StatePayload.success = some (some false)
    ∧ (SystemState.calculateConsecutiveErrors
        ([⟨"1m", Direction.BUY, true, 1, 50, 0⟩] ++
          [⟨"1m", Direction.SELL, false, -1, 50, 0⟩])).1 =
      (SystemState.calculateConsecutiveErrors
        [⟨"1m", Direction.BUY, true, 1, 50, 0⟩]).1 + 1 := by
  have h := neutral_forwarded_as_failure 7
    ⟨0, Direction.NEUTRAL, 50, 100, "1m", 180000, DecisionStatus.ready, none⟩
    100 rfl
    [⟨"1m", Direction.BUY, true, 1, 50, 0⟩]
    ⟨"1m", Direction.SELL, false, -1, 50, 0⟩ rfl
  exact ⟨h.2.1 rfl, h.2.2.2.2⟩

end ZingSignals
